import Mathlib

/-!
Verification development for the V3 serial parsing and WebSocket fan-out core
of the Prusa Core One ESP32 monitor.

The C source is shallowly embedded: lines are `List Char`, the printer state
mirrors the C structs (`temp_state_t`, `progress_state_t`, `position_state_t`,
`power_state_t`), numeric values parsed by `sscanf` `%f` / `%d` become `Rat` /
`Int`, and each `sscanf` call of the source is embedded as a dedicated scanner
following the C library's matching rules (literal characters match exactly,
`%f`/`%d` skip leading whitespace, a `[^c]` scanset must match a nonempty run,
and the call succeeds when the required number of conversions were assigned,
regardless of later literal directives).
-/

set_option maxRecDepth 8192

namespace PrusaWS

/-- Text is modelled as a list of characters. -/
abbrev Str := List Char

/-- WS_MESSAGE_QUEUE_SIZE from the source configuration block. -/
def WS_MESSAGE_QUEUE_SIZE : Nat := 50

/-- WS_MAX_PAYLOAD_SIZE from the source configuration block. -/
def WS_MAX_PAYLOAD_SIZE : Nat := 512

/-- SERIAL_LINE_BUFFER_SIZE from the source configuration block. -/
def SERIAL_LINE_BUFFER_SIZE : Nat := 512

/-- C `strstr`: the suffix of the haystack starting at the first occurrence
of the pattern, or `none`. -/
def strstr? (pat : Str) : Str → Option Str
  | [] => if pat.isPrefixOf ([] : Str) then some [] else none
  | c :: t => if pat.isPrefixOf (c :: t) then some (c :: t) else strstr? pat t

/-- Index of the first occurrence of the pattern, or `none`. -/
def strstrIdx? (pat : Str) : Str → Option Nat
  | [] => if pat.isPrefixOf ([] : Str) then some 0 else none
  | c :: t =>
    if pat.isPrefixOf (c :: t) then some 0
    else (strstrIdx? pat t).map (fun n => n + 1)

/-- Match a literal run of format characters, returning the rest. -/
def dropLit (pat s : Str) : Option Str :=
  if pat.isPrefixOf s then some (s.drop pat.length) else none

/-- C `isspace` characters skipped by `%f`/`%d`/format whitespace. -/
def cIsSpace (c : Char) : Bool :=
  c == ' ' || c == '\t' || c == '\n' || c == '\r' || c == '\x0b' || c == '\x0c'

/-- Skip leading whitespace. -/
def skipWs (s : Str) : Str := s.dropWhile cIsSpace

/-- Numeric value of one decimal digit. -/
def digitVal (c : Char) : Nat := c.toNat - '0'.toNat

/-- Decimal value of a digit run. -/
def digitsNat (ds : Str) : Nat := ds.foldl (fun a c => 10 * a + digitVal c) 0

/-- A nonempty run of decimal digits and the rest of the input. -/
def scanDigits (s : Str) : Option (Nat × Str) :=
  let ds := s.takeWhile Char.isDigit
  if ds.isEmpty then none
  else some (digitsNat ds, s.dropWhile Char.isDigit)

/-- The `%d` conversion: optional whitespace, optional sign, digits. -/
def scanInt (s : Str) : Option (Int × Str) :=
  let s1 := skipWs s
  match s1 with
  | '-' :: t => (scanDigits t).map (fun p => (-(p.1 : Int), p.2))
  | '+' :: t => (scanDigits t).map (fun p => ((p.1 : Int), p.2))
  | _ => (scanDigits s1).map (fun p => ((p.1 : Int), p.2))

/-- Unsigned decimal mantissa of a `%f` conversion, `digits[.digits]` or
`.digits`, kept as an exact numerator/denominator pair of naturals. -/
def scanMantissaND (s : Str) : Option ((Nat × Nat) × Str) :=
  let ip := s.takeWhile Char.isDigit
  let r0 := s.dropWhile Char.isDigit
  if ip.isEmpty then
    match r0 with
    | '.' :: t =>
      let fp := t.takeWhile Char.isDigit
      if fp.isEmpty then none
      else some ((digitsNat fp, 10 ^ fp.length), t.dropWhile Char.isDigit)
    | _ => none
  else
    match r0 with
    | '.' :: t =>
      let fp := t.takeWhile Char.isDigit
      some ((digitsNat ip * 10 ^ fp.length + digitsNat fp, 10 ^ fp.length),
            t.dropWhile Char.isDigit)
    | _ => some ((digitsNat ip, 1), r0)

/-- Optional exponent digits of a `%f` conversion; consumed only when at
least one digit follows, scaling the numerator or the denominator. -/
def scanExpTailND (nd : Nat × Nat) (orig t : Str) : (Nat × Nat) × Str :=
  match t with
  | '-' :: t2 =>
    match scanDigits t2 with
    | some p => ((nd.1, nd.2 * 10 ^ p.1), p.2)
    | none => (nd, orig)
  | '+' :: t2 =>
    match scanDigits t2 with
    | some p => ((nd.1 * 10 ^ p.1, nd.2), p.2)
    | none => (nd, orig)
  | _ =>
    match scanDigits t with
    | some p => ((nd.1 * 10 ^ p.1, nd.2), p.2)
    | none => (nd, orig)

/-- Apply an optional exponent after a mantissa. -/
def scanExpND (nd : Nat × Nat) (s : Str) : (Nat × Nat) × Str :=
  match s with
  | 'e' :: t => scanExpTailND nd s t
  | 'E' :: t => scanExpTailND nd s t
  | _ => (nd, s)

/-- Unsigned `%f` conversion, as an exact rational. -/
def scanUFloat (s : Str) : Option (Rat × Str) :=
  (scanMantissaND s).map (fun p =>
    ((fun q => (mkRat (Int.ofNat q.1.1) q.1.2, q.2)) (scanExpND p.1 p.2)))

/-- The `%f` conversion: optional whitespace, optional sign, mantissa,
optional exponent, as an exact rational. -/
def scanFloat (s : Str) : Option (Rat × Str) :=
  let s1 := skipWs s
  match s1 with
  | '-' :: t =>
    (scanMantissaND t).map (fun p =>
      ((fun q => (mkRat (-Int.ofNat q.1.1) q.1.2, q.2)) (scanExpND p.1 p.2)))
  | '+' :: t => scanUFloat t
  | _ => scanUFloat s1

/-- The `%*[^c]` directive: a nonempty run of characters other than `c`
(assignment suppressed), returning the rest; empty run is a matching failure. -/
def scanSetNot (c : Char) (s : Str) : Option Str :=
  let run := s.takeWhile (fun x => x != c)
  if run.isEmpty then none else some (s.dropWhile (fun x => x != c))

/-! ### Marker and keyword strings of `parse_and_broadcast_line` -/

/-- Nozzle dual-zone marker. -/
def mT : Str := "T:".toList

/-- Bed dual-zone marker. -/
def mB : Str := "B:".toList

/-- Heatbreak marker (also the X axis marker of position lines). -/
def mX : Str := "X:".toList

/-- Chamber marker. -/
def mCat : Str := "C@:".toList

/-- Nozzle power marker. -/
def mAt : Str := "@:".toList

/-- Bed power marker. -/
def mBAt : Str := "B@:".toList

/-- Heatbreak power marker. -/
def mHbrAt : Str := "HBR@:".toList

/-- Y axis marker. -/
def mY : Str := "Y:".toList

/-- Z axis marker. -/
def mZ : Str := "Z:".toList

/-- E axis marker. -/
def mE : Str := "E:".toList

/-- Progress keyword. -/
def kwProgress : Str := "Progress:".toList

/-- Remaining-time keyword. -/
def kwTimeLeft : Str := "Time left:".toList

/-- Change-time keyword. -/
def kwChange : Str := "Change:".toList

/-- Completion phrase. -/
def kwDone : Str := "Done printing file".toList

/-- Suffix marker after which position lines carry no axis data. -/
def kwCount : Str := "Count".toList

/-! ### Printer state and messages (`temp_state_t` etc., `ws_message_t`) -/

/-- `temp_state_t` of the source. -/
structure TempState where
  nozzle_current : Rat
  nozzle_target : Rat
  bed_current : Rat
  bed_target : Rat
  heatbreak_current : Rat
  heatbreak_target : Rat
  chamber_current : Rat
deriving DecidableEq

/-- `progress_state_t` of the source. -/
structure ProgressState where
  percent : Int
  time_left_mins : Int
  change_mins : Int
deriving DecidableEq

/-- `position_state_t` of the source. -/
structure PositionState where
  x : Rat
  y : Rat
  z : Rat
  e : Rat
deriving DecidableEq

/-- `power_state_t` of the source. -/
structure PowerState where
  nozzle_pwm : Int
  bed_pwm : Int
  heatbreak_pwm : Int
deriving DecidableEq

/-- The canonical printer state guarded by `printer_state_mutex`. -/
structure PrinterState where
  temps : TempState
  progress : ProgressState
  position : PositionState
  power : PowerState
  connected : Bool
deriving DecidableEq

/-- One `ws_message_t`; the builders of the source snapshot the state structs
into a JSON payload, which is modelled by carrying the snapshotted values
(the log builder's escaping is embedded explicitly below). -/
inductive WsMessage where
  | temperature (t : TempState)
  | progress (p : ProgressState)
  | position (p : PositionState)
  | power (pw : PowerState)
  | log (text : Str)
  | status (connected : Bool)
deriving DecidableEq

/-- Whether a message is a log message. -/
def isLogMsg : WsMessage → Bool
  | WsMessage.log _ => true
  | _ => false

/-- Whether a message is a temperature message. -/
def isTempMsg : WsMessage → Bool
  | WsMessage.temperature _ => true
  | _ => false

/-- Whether a message is a progress message. -/
def isProgressMsg : WsMessage → Bool
  | WsMessage.progress _ => true
  | _ => false

/-- Whether a message is a position message. -/
def isPositionMsg : WsMessage → Bool
  | WsMessage.position _ => true
  | _ => false

/-- The zero-initialised state created at process start. -/
def initialPrinterState : PrinterState :=
  { temps := ⟨0, 0, 0, 0, 0, 0, 0⟩
    progress := ⟨0, 0, 0⟩
    position := ⟨0, 0, 0, 0⟩
    power := ⟨0, 0, 0⟩
    connected := false }

/-! ### `build_log_message` escaping -/

/-- Escape-buffer budget of `build_log_message`:
`sizeof(escaped) - 2` with `char escaped[WS_MAX_PAYLOAD_SIZE / 2]`. -/
def ESC_CAP : Nat := WS_MAX_PAYLOAD_SIZE / 2 - 2

/-- The escape loop of `build_log_message`: while output length `j` is below
`ESC_CAP`, copy the next character, prefixing a backslash before `"` and `\`. -/
def escRun : Str → Nat → Str
  | [], _ => []
  | c :: t, j =>
    if j < ESC_CAP then
      if c == '"' || c == '\\' then '\\' :: c :: escRun t (j + 2)
      else c :: escRun t (j + 1)
    else []

/-- The log text produced by `build_log_message` for a line. -/
def escapeLog (s : Str) : Str := escRun s 0

/-! ### Embeddings of the individual `sscanf` calls -/

/-- `sscanf(pos, "M:%f/%f", &cur, &tgt) == 2` for a marker `M`, applied to the
`strstr` suffix starting at the marker. -/
def scanCurTgt (marker : Str) (s : Str) : Option (Rat × Rat) :=
  match dropLit marker s with
  | none => none
  | some r =>
    match scanFloat r with
    | none => none
    | some (a, r1) =>
      match r1 with
      | '/' :: r2 => (scanFloat r2).map (fun p => (a, p.1))
      | _ => none

/-- Lines 405-413: both `T:` and `B:` present and both `current/target` pairs
parse; the values written into the nozzle/bed fields. -/
def dualZoneScan (line : Str) : Option ((Rat × Rat) × (Rat × Rat)) :=
  match strstr? mT line, strstr? mB line with
  | some tpos, some bpos =>
    match scanCurTgt mT tpos, scanCurTgt mB bpos with
    | some nz, some bd => some (nz, bd)
    | _, _ => none
  | _, _ => none

/-- Lines 423-430: the heatbreak `X:cur/tgt` pair at the first `X:`. -/
def heatbreakScan (line : Str) : Option (Rat × Rat) :=
  (strstr? mX line).bind (fun s => scanCurTgt mX s)

/-- A `marker%f` scan at the first occurrence of the marker. -/
def markerFloatScan (marker : Str) (line : Str) : Option Rat :=
  (strstr? marker line).bind (fun s =>
    (dropLit marker s).bind (fun r => (scanFloat r).map Prod.fst))

/-- A `marker%d` scan at the first occurrence of the marker. -/
def markerIntScan (marker : Str) (line : Str) : Option Int :=
  (strstr? marker line).bind (fun s =>
    (dropLit marker s).bind (fun r => (scanInt r).map Prod.fst))

/-- Lines 433-439: the chamber `C@:v` value. -/
def chamberScan (line : Str) : Option Rat := markerFloatScan mCat line

/-- Line 452: nozzle power at the first `@:`. -/
def powerNozzleScan (line : Str) : Option Int := markerIntScan mAt line

/-- Line 455: bed power at the first `B@:`. -/
def powerBedScan (line : Str) : Option Int := markerIntScan mBAt line

/-- Line 458: heatbreak power at the first `HBR@:`. -/
def powerHbScan (line : Str) : Option Int := markerIntScan mHbrAt line

/-- Line 471: `sscanf(line, "%*[^P]Progress: %d%%", &percent) == 1`; the call
counts one assignment as soon as `%d` converts, so the trailing `%%` literal
is not required for success. -/
def progressScan (line : Str) : Option Int :=
  match scanSetNot 'P' line with
  | none => none
  | some r =>
    match dropLit kwProgress r with
    | none => none
    | some r2 => (scanInt r2).map Prod.fst

/-- Lines 483-486 and 498-501: the two-step `"<kw> %dh %dm"` /  `"<kw> %dm"`
cascade applied to the `strstr` suffix at the keyword.  The first call returns
2 exactly when both `%d` convert with a literal `h` between them; otherwise the
second call returns 1 exactly when the first `%d` converts (its trailing `m`
literal comes after the assignment and is not required).  The resulting minute
value, or `none` when even the first integer fails to convert. -/
def hmScan (kw : Str) (line : Str) : Option Int :=
  match strstr? kw line with
  | none => none
  | some s =>
    match dropLit kw s with
    | none => none
    | some r =>
      match scanInt r with
      | none => none
      | some (v1, r1) =>
        match r1 with
        | 'h' :: r2 =>
          match scanInt r2 with
          | some (v2, _) => some (v1 * 60 + v2)
          | none => some v1
        | _ => some v1

/-- The minutes value the `Time left:` pattern would store. -/
def timeLeftScan (line : Str) : Option Int := hmScan kwTimeLeft line

/-- The minutes value the `Change:` pattern would store. -/
def changeScan (line : Str) : Option Int := hmScan kwChange line

/-- Line 519: `sscanf(temp_line, "%*[^X]X:%f Y:%f Z:%f E:%f", ...) == 4`.
The leading `%*[^X]` scanset must match a nonempty run of non-`X` characters,
so the call fails on input that begins with `X`. -/
def positionScan (s : Str) : Option (Rat × Rat × Rat × Rat) :=
  match scanSetNot 'X' s with
  | none => none
  | some r =>
    match dropLit mX r with
    | none => none
    | some r1 =>
      match scanFloat r1 with
      | none => none
      | some (x, r2) =>
        match dropLit mY (skipWs r2) with
        | none => none
        | some r3 =>
          match scanFloat r3 with
          | none => none
          | some (y, r4) =>
            match dropLit mZ (skipWs r4) with
            | none => none
            | some r5 =>
              match scanFloat r5 with
              | none => none
              | some (z, r6) =>
                match dropLit mE (skipWs r6) with
                | none => none
                | some r7 => (scanFloat r7).map (fun p => (x, y, z, p.1))

/-- Lines 511-516: copy at most `SERIAL_LINE_BUFFER_SIZE - 1` characters and
cut the copy at the first `Count`. -/
def truncAtCount (s : Str) : Str :=
  let s1 := s.take (SERIAL_LINE_BUFFER_SIZE - 1)
  match strstrIdx? kwCount s1 with
  | some i => s1.take i
  | none => s1

/-! ### The pattern sections of `parse_and_broadcast_line` -/

/-- Lines 405-444: the dual-zone / heatbreak / chamber block, guarded by both
`T:` and `B:` being present; returns the new temperatures and the temperature
message broadcast when the dual-zone pair parsed. -/
def tempSection (t0 : TempState) (line : Str) : TempState × List WsMessage :=
  if (strstr? mT line).isSome && (strstr? mB line).isSome then
    let r1 : TempState × Bool :=
      match dualZoneScan line with
      | some p =>
        ({ t0 with nozzle_current := p.1.1, nozzle_target := p.1.2,
                   bed_current := p.2.1, bed_target := p.2.2 }, true)
      | none => (t0, false)
    let t2 : TempState :=
      match heatbreakScan line with
      | some p => { r1.1 with heatbreak_current := p.1, heatbreak_target := p.2 }
      | none => r1.1
    let t3 : TempState :=
      match chamberScan line with
      | some cv => { t2 with chamber_current := cv }
      | none => t2
    (t3, if r1.2 then [WsMessage.temperature t3] else [])
  else (t0, [])

/-- Lines 446-465: the power block, inside the same `T:`/`B:` guard; each
marker updates its field independently and any success broadcasts one power
message. -/
def powerSection (pw0 : PowerState) (line : Str) : PowerState × List WsMessage :=
  if (strstr? mT line).isSome && (strstr? mB line).isSome then
    let r1 : PowerState × Bool :=
      match powerNozzleScan line with
      | some v => ({ pw0 with nozzle_pwm := v }, true)
      | none => (pw0, false)
    let r2 : PowerState × Bool :=
      match powerBedScan line with
      | some v => ({ r1.1 with bed_pwm := v }, true)
      | none => r1
    let r3 : PowerState × Bool :=
      match powerHbScan line with
      | some v => ({ r2.1 with heatbreak_pwm := v }, true)
      | none => r2
    (r3.1, if r3.2 then [WsMessage.power r3.1] else [])
  else (pw0, [])

/-- Lines 469-476: the `Progress:` block; a message is broadcast only when the
percent value converts. -/
def progressSection (pr : ProgressState) (line : Str) : ProgressState × List WsMessage :=
  if (strstr? kwProgress line).isSome then
    match progressScan line with
    | some pc =>
      let pr1 : ProgressState := { pr with percent := pc }
      (pr1, [WsMessage.progress pr1])
    | none => (pr, [])
  else (pr, [])

/-- Lines 479-491: the `Time left:` block; when the keyword is present a
progress message is broadcast even if the value fails to convert (the state
is then unchanged). -/
def timeLeftSection (pr : ProgressState) (line : Str) : ProgressState × List WsMessage :=
  if (strstr? kwTimeLeft line).isSome then
    let pr1 : ProgressState :=
      match timeLeftScan line with
      | some v => { pr with time_left_mins := v }
      | none => pr
    (pr1, [WsMessage.progress pr1])
  else (pr, [])

/-- Lines 494-506: the `Change:` block, same shape as the `Time left:` block. -/
def changeSection (pr : ProgressState) (line : Str) : ProgressState × List WsMessage :=
  if (strstr? kwChange line).isSome then
    let pr1 : ProgressState :=
      match changeScan line with
      | some v => { pr with change_mins := v }
      | none => pr
    (pr1, [WsMessage.progress pr1])
  else (pr, [])

/-- Lines 509-527: the position block, guarded by all four axis markers. -/
def positionSection (po : PositionState) (line : Str) : PositionState × List WsMessage :=
  if (strstr? mX line).isSome && (strstr? mY line).isSome &&
     (strstr? mZ line).isSome && (strstr? mE line).isSome then
    match positionScan (truncAtCount line) with
    | some q =>
      let p1 : PositionState := ⟨q.1, q.2.1, q.2.2.1, q.2.2.2⟩
      (p1, [WsMessage.position p1])
    | none => (po, [])
  else (po, [])

/-- Lines 530-535: the completion block. -/
def doneSection (pr : ProgressState) (line : Str) : ProgressState × List WsMessage :=
  if (strstr? kwDone line).isSome then
    let pr1 : ProgressState := { pr with percent := 100, time_left_mins := 0 }
    (pr1, [WsMessage.progress pr1])
  else (pr, [])

/-- Lines 393-538, `parse_and_broadcast_line`: the log message is broadcast
first (outside the state mutex), then each pattern section runs in order under
the state mutex, broadcasting its messages as it goes.  Returns the new state
and the broadcast messages in order. -/
def parse_and_broadcast_line (st : PrinterState) (line : Str) :
    PrinterState × List WsMessage :=
  let ts := tempSection st.temps line
  let pws := powerSection st.power line
  let prs1 := progressSection st.progress line
  let prs2 := timeLeftSection prs1.1 line
  let prs3 := changeSection prs2.1 line
  let pos1 := positionSection st.position line
  let prs4 := doneSection prs3.1 line
  ({ temps := ts.1, progress := prs4.1, position := pos1.1, power := pws.1,
     connected := st.connected },
   WsMessage.log (escapeLog line) ::
     (ts.2 ++ pws.2 ++ prs1.2 ++ prs2.2 ++ prs3.2 ++ pos1.2 ++ prs4.2))

/-! ### `handle_rx`: the line assembler -/

/-- One step of the byte loop of `handle_rx` (lines 547-573).  The accumulator
is the current line buffer content and the lines emitted so far; a terminator
flushes a nonempty buffer, a data byte is appended while fewer than
`SERIAL_LINE_BUFFER_SIZE - 1` characters are stored, and otherwise the full
buffer is flushed and the triggering byte is not stored. -/
def rxStep (acc : Str × List Str) (c : Char) : Str × List Str :=
  if c = '\n' ∨ c = '\r' then
    if acc.1.length > 0 then ([], acc.2 ++ [acc.1]) else acc
  else
    if acc.1.length < SERIAL_LINE_BUFFER_SIZE - 1 then (acc.1 ++ [c], acc.2)
    else ([], acc.2 ++ [acc.1])

/-- `handle_rx` over one chunk of data, starting from buffer content `buf`:
the final buffer content and the lines handed to `parse_and_broadcast_line`. -/
def handle_rx (buf : Str) (data : List Char) : Str × List Str :=
  data.foldl rxStep (buf, [])

/-! ### Client registry, queues and broadcast -/

/-- One `ws_client_t` slot with its private bounded message queue. -/
structure WsClientM where
  fd : Int
  active : Bool
  queue : List WsMessage
deriving DecidableEq

/-- `xQueueSend(queue, msg, 0)`: non-blocking bounded enqueue; returns the new
queue and whether the message was accepted (`pdTRUE`). -/
def xQueueSend (cap : Nat) (q : List WsMessage) (m : WsMessage) :
    List WsMessage × Bool :=
  if q.length < cap then (q ++ [m], true) else (q, false)

/-- The client loop of `ws_broadcast_message` (lines 277-283), run while
`ws_clients_mutex` is held: for each active client an `xQueueSend` with zero
timeout is attempted.  When a queue is full the message is dropped and
`ESP_LOGW` fires; once `esp_log_set_vprintf` (line 1083) has installed
`ws_log_vprintf`, that warning re-enters `ws_broadcast_message` (line 384),
which re-takes the already-held non-recursive clients mutex with
`portMAX_DELAY` and never returns.  `logHook` records whether the hook is
installed; the boolean of the result is `true` when the call deadlocks at
some client, and the clients after that point are never reached. -/
def wsBroadcastGo (logHook : Bool) (m : WsMessage) :
    List WsClientM → List WsClientM × Bool
  | [] => ([], false)
  | c :: rest =>
    if c.active then
      let r := xQueueSend WS_MESSAGE_QUEUE_SIZE c.queue m
      if !r.2 && logHook then ({ c with queue := r.1 } :: rest, true)
      else
        let q := wsBroadcastGo logHook m rest
        ({ c with queue := r.1 } :: q.1, q.2)
    else
      let q := wsBroadcastGo logHook m rest
      (c :: q.1, q.2)

/-- Lines 273-286, `ws_broadcast_message`: enqueue the message on every active
client's queue under the clients mutex.  A full queue drops the message and
logs a warning; with the WebSocket log hook installed that warning re-enters
the broadcast and self-deadlocks on the clients mutex (second component
`true` means the call never returns). -/
def ws_broadcast_message (logHook : Bool) (clients : List WsClientM)
    (m : WsMessage) : List WsClientM × Bool :=
  wsBroadcastGo logHook m clients

/-- Publishing a sequence of messages to one queue. -/
def publishSeq (q : List WsMessage) (evs : List WsMessage) : List WsMessage :=
  evs.foldl (fun acc e => (xQueueSend WS_MESSAGE_QUEUE_SIZE acc e).1) q

/-! ### Lock traces -/

/-- Acquisitions and releases of the two mutexes of the core. -/
inductive LockEv where
  | acqClients
  | relClients
  | acqState
  | relState
deriving DecidableEq

/-- The lock events of one `ws_broadcast_message` call. -/
def bcastLock : List LockEv := [LockEv.acqClients, LockEv.relClients]

/-- The lock events of one `parse_and_broadcast_line` call: the log broadcast
runs before the state mutex is taken; every further broadcast (one per
remaining message) runs while the state mutex is held. -/
def parseLockTrace (st : PrinterState) (line : Str) : List LockEv :=
  bcastLock ++ LockEv.acqState ::
    ((((parse_and_broadcast_line st line).2.tail).map (fun _ => bcastLock)).flatten
      ++ [LockEv.relState])

/-- Lock events of `ws_client_add`. -/
def wsClientAddTrace : List LockEv := [LockEv.acqClients, LockEv.relClients]

/-- Lock events of `ws_client_remove`. -/
def wsClientRemoveTrace : List LockEv := [LockEv.acqClients, LockEv.relClients]

/-- Lock events of one `ws_sender_task` pass. -/
def wsSenderPassTrace : List LockEv := [LockEv.acqClients, LockEv.relClients]

/-- Lock events of the disconnect branch of `handle_event`. -/
def handleDisconnectTrace : List LockEv :=
  [LockEv.acqState, LockEv.relState, LockEv.acqClients, LockEv.relClients]

/-- Lock events of the `CONNECT` branch of `ws_handler` (client add, then the
snapshot seed under the state mutex). -/
def wsConnectSeedTrace : List LockEv :=
  [LockEv.acqClients, LockEv.relClients, LockEv.acqState, LockEv.relState]

/-- Lock events of the connect path in `app_main`. -/
def mainConnectTrace : List LockEv :=
  [LockEv.acqState, LockEv.relState, LockEv.acqClients, LockEv.relClients]

/-- Checks that the state mutex is never acquired while the clients mutex is
held; the boolean tracks whether the clients mutex is currently held. -/
def ordOk : Bool → List LockEv → Bool
  | _, [] => true
  | _, LockEv.acqClients :: r => ordOk true r
  | _, LockEv.relClients :: r => ordOk false r
  | ch, LockEv.acqState :: r => !ch && ordOk ch r
  | ch, LockEv.relState :: r => ordOk ch r

/-- Whether at some point both mutexes are held simultaneously; the booleans
track the clients mutex and the state mutex. -/
def bothHeld : Bool → Bool → List LockEv → Bool
  | _, _, [] => false
  | _, sh, LockEv.acqClients :: r => sh || bothHeld true sh r
  | _, sh, LockEv.relClients :: r => bothHeld false sh r
  | ch, _, LockEv.acqState :: r => ch || bothHeld ch true r
  | ch, _, LockEv.relState :: r => bothHeld ch false r

/-! ### Helper lemmas -/

theorem parse_temps_proj (st : PrinterState) (line : Str) :
    (parse_and_broadcast_line st line).1.temps = (tempSection st.temps line).1 := rfl

theorem parse_power_proj (st : PrinterState) (line : Str) :
    (parse_and_broadcast_line st line).1.power = (powerSection st.power line).1 := rfl

theorem parse_position_proj (st : PrinterState) (line : Str) :
    (parse_and_broadcast_line st line).1.position = (positionSection st.position line).1 := rfl

theorem parse_progress_proj (st : PrinterState) (line : Str) :
    (parse_and_broadcast_line st line).1.progress =
      (doneSection (changeSection (timeLeftSection
        (progressSection st.progress line).1 line).1 line).1 line).1 := rfl

theorem parse_events_eq (st : PrinterState) (line : Str) :
    (parse_and_broadcast_line st line).2 =
      WsMessage.log (escapeLog line) ::
        ((tempSection st.temps line).2 ++ (powerSection st.power line).2 ++
         (progressSection st.progress line).2 ++
         (timeLeftSection (progressSection st.progress line).1 line).2 ++
         (changeSection (timeLeftSection (progressSection st.progress line).1 line).1 line).2 ++
         (positionSection st.position line).2 ++
         (doneSection (changeSection (timeLeftSection
           (progressSection st.progress line).1 line).1 line).1 line).2) := rfl

theorem progressSection_time (pr : ProgressState) (line : Str) :
    ((progressSection pr line).1).time_left_mins = pr.time_left_mins := by
  unfold progressSection
  split
  · split <;> rfl
  · rfl

theorem progressSection_change (pr : ProgressState) (line : Str) :
    ((progressSection pr line).1).change_mins = pr.change_mins := by
  unfold progressSection
  split
  · split <;> rfl
  · rfl

theorem timeLeftSection_change (pr : ProgressState) (line : Str) :
    ((timeLeftSection pr line).1).change_mins = pr.change_mins := by
  unfold timeLeftSection
  split
  · split <;> rfl
  · rfl

theorem timeLeftSection_percent (pr : ProgressState) (line : Str) :
    ((timeLeftSection pr line).1).percent = pr.percent := by
  unfold timeLeftSection
  split
  · split <;> rfl
  · rfl

theorem changeSection_time (pr : ProgressState) (line : Str) :
    ((changeSection pr line).1).time_left_mins = pr.time_left_mins := by
  unfold changeSection
  split
  · split <;> rfl
  · rfl

theorem changeSection_percent (pr : ProgressState) (line : Str) :
    ((changeSection pr line).1).percent = pr.percent := by
  unfold changeSection
  split
  · split <;> rfl
  · rfl

theorem tempSection_filter_log (t0 : TempState) (line : Str) :
    ((tempSection t0 line).2).filter isLogMsg = [] := by
  unfold tempSection
  split
  · split <;> simp [isLogMsg]
  · rfl

theorem powerSection_filter_log (pw0 : PowerState) (line : Str) :
    ((powerSection pw0 line).2).filter isLogMsg = [] := by
  unfold powerSection
  split
  · split <;> simp [isLogMsg]
  · rfl

theorem progressSection_filter_log (pr : ProgressState) (line : Str) :
    ((progressSection pr line).2).filter isLogMsg = [] := by
  unfold progressSection
  split
  · split <;> simp [isLogMsg]
  · rfl

theorem timeLeftSection_filter_log (pr : ProgressState) (line : Str) :
    ((timeLeftSection pr line).2).filter isLogMsg = [] := by
  unfold timeLeftSection
  split <;> simp [isLogMsg]

theorem changeSection_filter_log (pr : ProgressState) (line : Str) :
    ((changeSection pr line).2).filter isLogMsg = [] := by
  unfold changeSection
  split <;> simp [isLogMsg]

theorem positionSection_filter_log (po : PositionState) (line : Str) :
    ((positionSection po line).2).filter isLogMsg = [] := by
  unfold positionSection
  split
  · split <;> simp [isLogMsg]
  · rfl

theorem doneSection_filter_log (pr : ProgressState) (line : Str) :
    ((doneSection pr line).2).filter isLogMsg = [] := by
  unfold doneSection
  split <;> simp [isLogMsg]

theorem powerSection_no_temp (pw0 : PowerState) (line : Str) (t : TempState) :
    WsMessage.temperature t ∉ (powerSection pw0 line).2 := by
  unfold powerSection
  split
  · split <;> simp
  · simp

theorem progressSection_no_temp (pr : ProgressState) (line : Str) (t : TempState) :
    WsMessage.temperature t ∉ (progressSection pr line).2 := by
  unfold progressSection
  split
  · split <;> simp
  · simp

theorem timeLeftSection_no_temp (pr : ProgressState) (line : Str) (t : TempState) :
    WsMessage.temperature t ∉ (timeLeftSection pr line).2 := by
  unfold timeLeftSection
  split <;> simp

theorem changeSection_no_temp (pr : ProgressState) (line : Str) (t : TempState) :
    WsMessage.temperature t ∉ (changeSection pr line).2 := by
  unfold changeSection
  split <;> simp

theorem positionSection_no_temp (po : PositionState) (line : Str) (t : TempState) :
    WsMessage.temperature t ∉ (positionSection po line).2 := by
  unfold positionSection
  split
  · split <;> simp
  · simp

theorem doneSection_no_temp (pr : ProgressState) (line : Str) (t : TempState) :
    WsMessage.temperature t ∉ (doneSection pr line).2 := by
  unfold doneSection
  split <;> simp

theorem dualZoneScan_gate (line : Str) (p : (Rat × Rat) × (Rat × Rat))
    (h : dualZoneScan line = some p) :
    (strstr? mT line).isSome = true ∧ (strstr? mB line).isSome = true := by
  unfold dualZoneScan at h
  constructor <;>
    · cases hT : strstr? mT line <;> cases hB : strstr? mB line <;>
        simp [hT, hB] at h ⊢

theorem tempSection_none (t0 : TempState) (line : Str)
    (h : dualZoneScan line = none) :
    (tempSection t0 line).2 = [] ∧
    (tempSection t0 line).1.nozzle_current = t0.nozzle_current ∧
    (tempSection t0 line).1.nozzle_target = t0.nozzle_target ∧
    (tempSection t0 line).1.bed_current = t0.bed_current ∧
    (tempSection t0 line).1.bed_target = t0.bed_target := by
  unfold tempSection
  split
  · rw [h]
    cases hh : heatbreakScan line <;> cases hc : chamberScan line <;> simp
  · simp

theorem tempSection_some (t0 : TempState) (line : Str)
    (p : (Rat × Rat) × (Rat × Rat)) (h : dualZoneScan line = some p) :
    (tempSection t0 line).1.nozzle_current = p.1.1 ∧
    (tempSection t0 line).1.nozzle_target = p.1.2 ∧
    (tempSection t0 line).1.bed_current = p.2.1 ∧
    (tempSection t0 line).1.bed_target = p.2.2 ∧
    (tempSection t0 line).2 = [WsMessage.temperature (tempSection t0 line).1] := by
  have hg := dualZoneScan_gate line p h
  unfold tempSection
  rw [hg.1, hg.2]
  simp only [Bool.and_self, if_true, h]
  cases hh : heatbreakScan line <;> cases hc : chamberScan line <;> simp

theorem tempSection_heatbreak (t0 : TempState) (line : Str)
    (hT : (strstr? mT line).isSome = true) (hB : (strstr? mB line).isSome = true)
    (p : Rat × Rat) (h : heatbreakScan line = some p) :
    (tempSection t0 line).1.heatbreak_current = p.1 ∧
    (tempSection t0 line).1.heatbreak_target = p.2 := by
  unfold tempSection
  rw [hT, hB]
  simp only [Bool.and_self, if_true, h]
  cases hd : dualZoneScan line <;> cases hc : chamberScan line <;> simp

theorem tempSection_chamber (t0 : TempState) (line : Str)
    (hT : (strstr? mT line).isSome = true) (hB : (strstr? mB line).isSome = true)
    (cv : Rat) (h : chamberScan line = some cv) :
    (tempSection t0 line).1.chamber_current = cv := by
  unfold tempSection
  rw [hT, hB]
  simp [h]

theorem timeLeftSection_malformed (pr : ProgressState) (line : Str)
    (hkw : (strstr? kwTimeLeft line).isSome = true) (hmal : timeLeftScan line = none) :
    timeLeftSection pr line = (pr, [WsMessage.progress pr]) := by
  unfold timeLeftSection
  rw [hkw]
  simp [hmal]

theorem changeSection_absent (pr : ProgressState) (line : Str)
    (h : (strstr? kwChange line).isSome = false) :
    changeSection pr line = (pr, []) := by
  unfold changeSection
  rw [h]
  simp

theorem doneSection_absent (pr : ProgressState) (line : Str)
    (h : (strstr? kwDone line).isSome = false) :
    doneSection pr line = (pr, []) := by
  unfold doneSection
  rw [h]
  simp

theorem doneSection_present (pr : ProgressState) (line : Str)
    (h : (strstr? kwDone line).isSome = true) :
    doneSection pr line =
      ({ pr with percent := 100, time_left_mins := 0 },
       [WsMessage.progress { pr with percent := 100, time_left_mins := 0 }]) := by
  unfold doneSection
  rw [h]
  simp

theorem doneSection_change (pr : ProgressState) (line : Str) :
    ((doneSection pr line).1).change_mins = pr.change_mins := by
  unfold doneSection
  split <;> rfl

theorem changeSection_malformed (pr : ProgressState) (line : Str)
    (hkw : (strstr? kwChange line).isSome = true) (hmal : changeScan line = none) :
    changeSection pr line = (pr, [WsMessage.progress pr]) := by
  unfold changeSection
  rw [hkw]
  simp [hmal]

theorem powerSection_all_none (pw0 : PowerState) (line : Str)
    (h1 : powerNozzleScan line = none) (h2 : powerBedScan line = none)
    (h3 : powerHbScan line = none) :
    powerSection pw0 line = (pw0, []) := by
  unfold powerSection
  split
  · simp [h1, h2, h3]
  · rfl

theorem progressSection_none (pr : ProgressState) (line : Str)
    (hkw : (strstr? kwProgress line).isSome = true) (hmal : progressScan line = none) :
    progressSection pr line = (pr, []) := by
  unfold progressSection
  rw [hkw]
  simp [hmal]

theorem positionSection_none (po : PositionState) (line : Str)
    (h : positionScan (truncAtCount line) = none) :
    positionSection po line = (po, []) := by
  unfold positionSection
  split
  · simp [h]
  · rfl

theorem tempSection_no_pos (t0 : TempState) (line : Str) (p : PositionState) :
    WsMessage.position p ∉ (tempSection t0 line).2 := by
  unfold tempSection
  split
  · split <;> simp
  · simp

theorem powerSection_no_pos (pw0 : PowerState) (line : Str) (p : PositionState) :
    WsMessage.position p ∉ (powerSection pw0 line).2 := by
  unfold powerSection
  split
  · split <;> simp
  · simp

theorem progressSection_no_pos (pr : ProgressState) (line : Str) (p : PositionState) :
    WsMessage.position p ∉ (progressSection pr line).2 := by
  unfold progressSection
  split
  · split <;> simp
  · simp

theorem timeLeftSection_no_pos (pr : ProgressState) (line : Str) (p : PositionState) :
    WsMessage.position p ∉ (timeLeftSection pr line).2 := by
  unfold timeLeftSection
  split <;> simp

theorem changeSection_no_pos (pr : ProgressState) (line : Str) (p : PositionState) :
    WsMessage.position p ∉ (changeSection pr line).2 := by
  unfold changeSection
  split <;> simp

theorem doneSection_no_pos (pr : ProgressState) (line : Str) (p : PositionState) :
    WsMessage.position p ∉ (doneSection pr line).2 := by
  unfold doneSection
  split <;> simp

theorem tempSection_no_power (t0 : TempState) (line : Str) (pw : PowerState) :
    WsMessage.power pw ∉ (tempSection t0 line).2 := by
  unfold tempSection
  split
  · split <;> simp
  · simp

theorem progressSection_no_power (pr : ProgressState) (line : Str) (pw : PowerState) :
    WsMessage.power pw ∉ (progressSection pr line).2 := by
  unfold progressSection
  split
  · split <;> simp
  · simp

theorem timeLeftSection_no_power (pr : ProgressState) (line : Str) (pw : PowerState) :
    WsMessage.power pw ∉ (timeLeftSection pr line).2 := by
  unfold timeLeftSection
  split <;> simp

theorem changeSection_no_power (pr : ProgressState) (line : Str) (pw : PowerState) :
    WsMessage.power pw ∉ (changeSection pr line).2 := by
  unfold changeSection
  split <;> simp

theorem positionSection_no_power (po : PositionState) (line : Str) (pw : PowerState) :
    WsMessage.power pw ∉ (positionSection po line).2 := by
  unfold positionSection
  split
  · split <;> simp
  · simp

theorem doneSection_no_power (pr : ProgressState) (line : Str) (pw : PowerState) :
    WsMessage.power pw ∉ (doneSection pr line).2 := by
  unfold doneSection
  split <;> simp

theorem publishSeq_take (evs : List WsMessage) :
    ∀ q : List WsMessage, q.length ≤ WS_MESSAGE_QUEUE_SIZE →
      publishSeq q evs = (q ++ evs).take WS_MESSAGE_QUEUE_SIZE := by
  induction evs with
  | nil =>
    intro q h
    simp [publishSeq, List.take_of_length_le h]
  | cons e t ih =>
    intro q h
    unfold publishSeq
    rw [List.foldl_cons]
    by_cases hq : q.length < WS_MESSAGE_QUEUE_SIZE
    · have h1 : (xQueueSend WS_MESSAGE_QUEUE_SIZE q e).1 = q ++ [e] := by
        simp [xQueueSend, hq]
      rw [h1]
      have h2 := ih (q ++ [e]) (by simpa using hq)
      unfold publishSeq at h2
      rw [h2, List.append_assoc]
      rfl
    · have hq50 : WS_MESSAGE_QUEUE_SIZE ≤ q.length := not_lt.mp hq
      have h1 : (xQueueSend WS_MESSAGE_QUEUE_SIZE q e).1 = q := by
        simp [xQueueSend, hq]
      rw [h1]
      have h2 := ih q h
      unfold publishSeq at h2
      rw [h2, List.take_append_of_le_length hq50,
          List.take_append_of_le_length hq50]

theorem rx_inv (data : List Char) :
    ∀ (buf : Str) (out : List Str),
      buf.length ≤ SERIAL_LINE_BUFFER_SIZE - 1 →
      (∀ l ∈ out, 0 < l.length ∧ l.length ≤ SERIAL_LINE_BUFFER_SIZE - 1) →
      (data.foldl rxStep (buf, out)).1.length ≤ SERIAL_LINE_BUFFER_SIZE - 1 ∧
      ∀ l ∈ (data.foldl rxStep (buf, out)).2,
        0 < l.length ∧ l.length ≤ SERIAL_LINE_BUFFER_SIZE - 1 := by
  induction data with
  | nil =>
    intro buf out hb ho
    exact ⟨hb, ho⟩
  | cons c t ih =>
    intro buf out hb ho
    rw [List.foldl_cons]
    by_cases hterm : (c = '\n' ∨ c = '\r')
    · by_cases hpos : buf.length > 0
      · have hstep : rxStep (buf, out) c = ([], out ++ [buf]) := by
          simp [rxStep, hterm, hpos]
        rw [hstep]
        refine ih [] (out ++ [buf]) (by simp) ?_
        intro l hl
        rcases List.mem_append.mp hl with h1 | h1
        · exact ho l h1
        · simp only [List.mem_singleton] at h1
          subst h1
          exact ⟨hpos, hb⟩
      · have hstep : rxStep (buf, out) c = (buf, out) := by
          simp [rxStep, hterm, hpos]
        rw [hstep]
        exact ih buf out hb ho
    · by_cases hlt : buf.length < SERIAL_LINE_BUFFER_SIZE - 1
      · have hstep : rxStep (buf, out) c = (buf ++ [c], out) := by
          simp [rxStep, hterm, hlt]
        rw [hstep]
        refine ih (buf ++ [c]) out (by simpa using hlt) ho
      · have hbuf : buf.length = SERIAL_LINE_BUFFER_SIZE - 1 :=
          le_antisymm hb (not_lt.mp hlt)
        have hstep : rxStep (buf, out) c = ([], out ++ [buf]) := by
          simp [rxStep, hterm, hlt]
        rw [hstep]
        refine ih [] (out ++ [buf]) (by simp) ?_
        intro l hl
        rcases List.mem_append.mp hl with h1 | h1
        · exact ho l h1
        · simp only [List.mem_singleton] at h1
          subst h1
          refine ⟨?_, le_of_eq hbuf⟩
          rw [hbuf]
          norm_num [SERIAL_LINE_BUFFER_SIZE]

theorem ordOk_bcast_flatten (l : List WsMessage) :
    ordOk false (((l.map (fun _ => bcastLock)).flatten) ++ [LockEv.relState]) = true := by
  induction l with
  | nil => rfl
  | cons e t ih => simpa [bcastLock, ordOk] using ih

/-! ### Claim theorems -/

/-- Claim C3 (code bug): on the line `X:10.00 Y:20.00 Z:1.50 E:0.00 Count ...`
the position `sscanf` format `%*[^X]X:%f Y:%f Z:%f E:%f` fails, because its
leading scanset requires a nonempty run of non-`X` characters while the line
starts with `X`; no Position event is emitted and the state is unchanged,
although the spec (and the code's own comment) promise a Position event with
x=10.00, y=20.00, z=1.50, e=0.00. -/
theorem claim_c3_position_scan_fails :
    positionScan (truncAtCount ("X:10.00 Y:20.00 Z:1.50 E:0.00 Count ...".toList)) = none ∧
    (parse_and_broadcast_line initialPrinterState
        ("X:10.00 Y:20.00 Z:1.50 E:0.00 Count ...".toList)).2 =
      [WsMessage.log (escapeLog ("X:10.00 Y:20.00 Z:1.50 E:0.00 Count ...".toList))] ∧
    (parse_and_broadcast_line initialPrinterState
        ("X:10.00 Y:20.00 Z:1.50 E:0.00 Count ...".toList)).1 = initialPrinterState := by
  decide

/-- Claim C4 counterexample: parsing the completion line broadcasts a progress
message while the state mutex is held, so the clients mutex is acquired with
the state mutex held — at that point both locks are held simultaneously. -/
theorem claim_c4_counterexample :
    bothHeld false false
      (parseLockTrace initialPrinterState ("Done printing file".toList)) = true := by
  decide

/-- Claim C4 (amended): the two locks ARE held simultaneously whenever the
parser broadcasts a pattern message, but the acquisition order is globally
consistent — on every modeled execution path the state mutex is never acquired
while the clients mutex is held — so the lock order is acyclic and
deadlock-free. -/
theorem claim_c4_lock_order (st : PrinterState) (line : Str) :
    ordOk false (parseLockTrace st line) = true ∧
    ordOk false wsClientAddTrace = true ∧
    ordOk false wsClientRemoveTrace = true ∧
    ordOk false wsSenderPassTrace = true ∧
    ordOk false handleDisconnectTrace = true ∧
    ordOk false wsConnectSeedTrace = true ∧
    ordOk false mainConnectTrace = true := by
  refine ⟨?_, by decide, by decide, by decide, by decide, by decide, by decide⟩
  unfold parseLockTrace bcastLock
  simp only [List.cons_append, List.nil_append, ordOk, Bool.not_false, Bool.true_and]
  exact ordOk_bcast_flatten _

/-- Claim C5 (code bug): with the WebSocket log hook installed (line 1083),
publishing to an active client whose queue already holds
`WS_MESSAGE_QUEUE_SIZE` messages drops the new message and then deadlocks —
the queue-full warning re-enters the broadcast and re-takes the held
non-recursive clients mutex, so the publish blocks forever, contradicting
"without blocking the publish operation".  Before the hook is installed the
call returns with the newest message dropped and the queued messages
preserved, and a 51-message publish sequence into one queue retains exactly
the first 50 in FIFO order. -/
theorem claim_c5_queue_full_deadlock :
    (ws_broadcast_message true
        [⟨0, true, List.replicate WS_MESSAGE_QUEUE_SIZE (WsMessage.status true)⟩]
        (WsMessage.status false)).2 = true ∧
    ws_broadcast_message false
        [⟨0, true, List.replicate WS_MESSAGE_QUEUE_SIZE (WsMessage.status true)⟩]
        (WsMessage.status false) =
      ([⟨0, true, List.replicate WS_MESSAGE_QUEUE_SIZE (WsMessage.status true)⟩], false) ∧
    publishSeq [] (List.replicate (WS_MESSAGE_QUEUE_SIZE + 1) (WsMessage.status true)) =
      List.replicate WS_MESSAGE_QUEUE_SIZE (WsMessage.status true) := by
  decide

/-- Claim C9: starting from any buffer state within bounds, after feeding any
byte sequence every line the assembler emitted is non-empty and at most
`SERIAL_LINE_BUFFER_SIZE - 1` characters long, and the accumulated buffer
content never exceeds that bound. -/
theorem claim_c9_line_assembler (buf : Str) (data : List Char)
    (hb : buf.length ≤ SERIAL_LINE_BUFFER_SIZE - 1) :
    (handle_rx buf data).1.length ≤ SERIAL_LINE_BUFFER_SIZE - 1 ∧
    ∀ l ∈ (handle_rx buf data).2,
      0 < l.length ∧ l.length ≤ SERIAL_LINE_BUFFER_SIZE - 1 := by
  have h := rx_inv data buf [] hb (by simp)
  exact h

/-- Witness for claim C9 on a concrete chunk with an empty line inside. -/
theorem claim_c9_line_assembler_witness :
    (([] : Str).length ≤ SERIAL_LINE_BUFFER_SIZE - 1) ∧
    ((handle_rx [] ("ab\r\n\ncd".toList)).1.length ≤ SERIAL_LINE_BUFFER_SIZE - 1 ∧
     ∀ l ∈ (handle_rx [] ("ab\r\n\ncd".toList)).2,
       0 < l.length ∧ l.length ≤ SERIAL_LINE_BUFFER_SIZE - 1) :=
  ⟨by decide, claim_c9_line_assembler [] ("ab\r\n\ncd".toList) (by decide)⟩

/-- Claim C10: when the buffer already holds `SERIAL_LINE_BUFFER_SIZE - 1`
characters and a further non-terminator byte arrives, exactly the buffered
characters are flushed as a line, the buffer resets to empty, and the
triggering byte is neither part of the flushed line nor retained for the next
line — it is lost. -/
theorem claim_c10_overflow_discard (buf : Str) (out : List Str) (c : Char)
    (hb : buf.length = SERIAL_LINE_BUFFER_SIZE - 1)
    (hc : ¬(c = '\n' ∨ c = '\r')) :
    rxStep (buf, out) c = ([], out ++ [buf]) := by
  simp [rxStep, hc, hb]

/-- Witness for claim C10 at a concrete full buffer. -/
theorem claim_c10_overflow_discard_witness :
    ((List.replicate 511 'a').length = SERIAL_LINE_BUFFER_SIZE - 1) ∧
    ¬(('b' : Char) = '\n' ∨ ('b' : Char) = '\r') ∧
    rxStep (List.replicate 511 'a', []) 'b' = ([], [List.replicate 511 'a']) :=
  ⟨by decide, by decide,
   claim_c10_overflow_discard (List.replicate 511 'a') [] 'b' (by decide) (by decide)⟩

/-- Claim C1 counterexample: on `Time left: zzz` the keyword is present but
the value fails to parse; the state is left unchanged, yet — contrary to the
claim — a Progress event (carrying the unchanged values) IS emitted for that
dimension. -/
theorem claim_c1_counterexample :
    (parse_and_broadcast_line
        ⟨⟨0, 0, 0, 0, 0, 0, 0⟩, ⟨3, 7, 9⟩, ⟨0, 0, 0, 0⟩, ⟨0, 0, 0⟩, false⟩
        ("Time left: zzz".toList)).1 =
      ⟨⟨0, 0, 0, 0, 0, 0, 0⟩, ⟨3, 7, 9⟩, ⟨0, 0, 0, 0⟩, ⟨0, 0, 0⟩, false⟩ ∧
    WsMessage.progress ⟨3, 7, 9⟩ ∈
      (parse_and_broadcast_line
        ⟨⟨0, 0, 0, 0, 0, 0, 0⟩, ⟨3, 7, 9⟩, ⟨0, 0, 0, 0⟩, ⟨0, 0, 0⟩, false⟩
        ("Time left: zzz".toList)).2 := by
  decide

/-- Claim C1 (amended): on every line, a malformed numeric value with the
pattern keyword present leaves that pattern's dimension of the state unchanged
and does not halt the remaining patterns.  The dual-zone temperature, power,
progress-percent and position patterns then emit no event for their dimension;
the `Time left:` and `Change:` patterns, however, still emit a Progress event
(carrying the unchanged values) whenever their keyword is present, even if the
value fails to parse. -/
theorem claim_c1_malformed_values (st : PrinterState) (line : Str) :
    ((strstr? kwTimeLeft line).isSome = true → timeLeftScan line = none →
      ((strstr? kwDone line).isSome = false →
        (parse_and_broadcast_line st line).1.progress.time_left_mins =
          st.progress.time_left_mins) ∧
      ∃ p : ProgressState,
        WsMessage.progress p ∈ (parse_and_broadcast_line st line).2 ∧
        p.time_left_mins = st.progress.time_left_mins) ∧
    ((strstr? kwChange line).isSome = true → changeScan line = none →
      (parse_and_broadcast_line st line).1.progress.change_mins =
        st.progress.change_mins ∧
      ∃ p : ProgressState,
        WsMessage.progress p ∈ (parse_and_broadcast_line st line).2 ∧
        p.change_mins = st.progress.change_mins) ∧
    (dualZoneScan line = none →
      (∀ t : TempState,
        WsMessage.temperature t ∉ (parse_and_broadcast_line st line).2) ∧
      (parse_and_broadcast_line st line).1.temps.nozzle_current = st.temps.nozzle_current ∧
      (parse_and_broadcast_line st line).1.temps.nozzle_target = st.temps.nozzle_target ∧
      (parse_and_broadcast_line st line).1.temps.bed_current = st.temps.bed_current ∧
      (parse_and_broadcast_line st line).1.temps.bed_target = st.temps.bed_target) ∧
    (powerNozzleScan line = none → powerBedScan line = none →
      powerHbScan line = none →
      (∀ pw : PowerState,
        WsMessage.power pw ∉ (parse_and_broadcast_line st line).2) ∧
      (parse_and_broadcast_line st line).1.power = st.power) ∧
    ((strstr? kwProgress line).isSome = true → progressScan line = none →
      progressSection st.progress line = (st.progress, []) ∧
      ((strstr? kwDone line).isSome = false →
        (parse_and_broadcast_line st line).1.progress.percent =
          st.progress.percent)) ∧
    (positionScan (truncAtCount line) = none →
      (∀ p : PositionState,
        WsMessage.position p ∉ (parse_and_broadcast_line st line).2) ∧
      (parse_and_broadcast_line st line).1.position = st.position) := by
  refine ⟨?_, ?_, ?_, ?_, ?_, ?_⟩
  · intro hkw hmal
    have htl := timeLeftSection_malformed (progressSection st.progress line).1 line hkw hmal
    constructor
    · intro hdone
      rw [parse_progress_proj, htl]
      have hda := doneSection_absent
        ((changeSection (progressSection st.progress line).1 line).1) line hdone
      rw [hda]
      rw [changeSection_time, progressSection_time]
    · refine ⟨(progressSection st.progress line).1, ?_, progressSection_time st.progress line⟩
      rw [parse_events_eq, htl]
      simp
  · intro hkwC hmalC
    have hch := changeSection_malformed
      ((timeLeftSection (progressSection st.progress line).1 line).1) line hkwC hmalC
    constructor
    · rw [parse_progress_proj, hch, doneSection_change,
          timeLeftSection_change, progressSection_change]
    · refine ⟨(timeLeftSection (progressSection st.progress line).1 line).1, ?_, ?_⟩
      · rw [parse_events_eq, hch]
        simp
      · rw [timeLeftSection_change, progressSection_change]
  · intro h
    have hn := tempSection_none st.temps line h
    constructor
    · intro t hmem
      rw [parse_events_eq] at hmem
      rcases List.mem_cons.mp hmem with heq | hmem2
      · exact absurd heq (by simp)
      · rw [hn.1] at hmem2
        simp only [List.nil_append, List.mem_append] at hmem2
        rcases hmem2 with ((((h1 | h1) | h1) | h1) | h1) | h1
        · exact powerSection_no_temp st.power line t h1
        · exact progressSection_no_temp st.progress line t h1
        · exact timeLeftSection_no_temp _ line t h1
        · exact changeSection_no_temp _ line t h1
        · exact positionSection_no_temp st.position line t h1
        · exact doneSection_no_temp _ line t h1
    · rw [parse_temps_proj]
      exact hn.2
  · intro h1 h2 h3
    have hp := powerSection_all_none st.power line h1 h2 h3
    constructor
    · intro pw hmem
      rw [parse_events_eq] at hmem
      rcases List.mem_cons.mp hmem with heq | hmem2
      · exact absurd heq (by simp)
      · simp only [List.mem_append] at hmem2
        rcases hmem2 with (((((hx | hx) | hx) | hx) | hx) | hx) | hx
        · exact tempSection_no_power st.temps line pw hx
        · rw [hp] at hx
          simp at hx
        · exact progressSection_no_power st.progress line pw hx
        · exact timeLeftSection_no_power _ line pw hx
        · exact changeSection_no_power _ line pw hx
        · exact positionSection_no_power st.position line pw hx
        · exact doneSection_no_power _ line pw hx
    · rw [parse_power_proj, hp]
  · intro hkw hmal
    have hpe := progressSection_none st.progress line hkw hmal
    refine ⟨hpe, ?_⟩
    intro hdone
    rw [parse_progress_proj, doneSection_absent _ _ hdone,
        changeSection_percent, timeLeftSection_percent, hpe]
  · intro h
    have hps := positionSection_none st.position line h
    constructor
    · intro p hmem
      rw [parse_events_eq] at hmem
      rcases List.mem_cons.mp hmem with heq | hmem2
      · exact absurd heq (by simp)
      · simp only [List.mem_append] at hmem2
        rcases hmem2 with (((((hx | hx) | hx) | hx) | hx) | hx) | hx
        · exact tempSection_no_pos st.temps line p hx
        · exact powerSection_no_pos st.power line p hx
        · exact progressSection_no_pos st.progress line p hx
        · exact timeLeftSection_no_pos _ line p hx
        · exact changeSection_no_pos _ line p hx
        · rw [hps] at hx
          simp at hx
        · exact doneSection_no_pos _ line p hx
    · rw [parse_position_proj, hps]

/-- Witness for the amended claim C1 at a single line on which every pattern
keyword is present with a malformed value. -/
theorem claim_c1_malformed_values_witness :
    ((strstr? kwTimeLeft ("T:a B:b @:x Progress: q Time left: zz Change: yy X:p Y:q Z:r E:s".toList)).isSome = true) ∧
    (timeLeftScan ("T:a B:b @:x Progress: q Time left: zz Change: yy X:p Y:q Z:r E:s".toList) = none) ∧
    ((strstr? kwChange ("T:a B:b @:x Progress: q Time left: zz Change: yy X:p Y:q Z:r E:s".toList)).isSome = true) ∧
    (changeScan ("T:a B:b @:x Progress: q Time left: zz Change: yy X:p Y:q Z:r E:s".toList) = none) ∧
    ((strstr? kwDone ("T:a B:b @:x Progress: q Time left: zz Change: yy X:p Y:q Z:r E:s".toList)).isSome = false) ∧
    (dualZoneScan ("T:a B:b @:x Progress: q Time left: zz Change: yy X:p Y:q Z:r E:s".toList) = none) ∧
    (powerNozzleScan ("T:a B:b @:x Progress: q Time left: zz Change: yy X:p Y:q Z:r E:s".toList) = none) ∧
    ((strstr? kwProgress ("T:a B:b @:x Progress: q Time left: zz Change: yy X:p Y:q Z:r E:s".toList)).isSome = true) ∧
    (progressScan ("T:a B:b @:x Progress: q Time left: zz Change: yy X:p Y:q Z:r E:s".toList) = none) ∧
    (positionScan (truncAtCount ("T:a B:b @:x Progress: q Time left: zz Change: yy X:p Y:q Z:r E:s".toList)) = none) ∧
    ((parse_and_broadcast_line initialPrinterState
        ("T:a B:b @:x Progress: q Time left: zz Change: yy X:p Y:q Z:r E:s".toList)).1.progress.time_left_mins =
      initialPrinterState.progress.time_left_mins ∧
     ∃ p : ProgressState,
       WsMessage.progress p ∈ (parse_and_broadcast_line initialPrinterState
         ("T:a B:b @:x Progress: q Time left: zz Change: yy X:p Y:q Z:r E:s".toList)).2 ∧
       p.time_left_mins = initialPrinterState.progress.time_left_mins) ∧
    ((parse_and_broadcast_line initialPrinterState
        ("T:a B:b @:x Progress: q Time left: zz Change: yy X:p Y:q Z:r E:s".toList)).1.progress.change_mins =
      initialPrinterState.progress.change_mins) ∧
    (∀ t : TempState, WsMessage.temperature t ∉ (parse_and_broadcast_line initialPrinterState
        ("T:a B:b @:x Progress: q Time left: zz Change: yy X:p Y:q Z:r E:s".toList)).2) ∧
    ((parse_and_broadcast_line initialPrinterState
        ("T:a B:b @:x Progress: q Time left: zz Change: yy X:p Y:q Z:r E:s".toList)).1.power =
      initialPrinterState.power) ∧
    ((parse_and_broadcast_line initialPrinterState
        ("T:a B:b @:x Progress: q Time left: zz Change: yy X:p Y:q Z:r E:s".toList)).1.progress.percent =
      initialPrinterState.progress.percent) ∧
    ((parse_and_broadcast_line initialPrinterState
        ("T:a B:b @:x Progress: q Time left: zz Change: yy X:p Y:q Z:r E:s".toList)).1.position =
      initialPrinterState.position) :=
  ⟨by decide, by decide, by decide, by decide, by decide, by decide, by decide,
   by decide, by decide, by decide,
   ⟨((claim_c1_malformed_values initialPrinterState
       ("T:a B:b @:x Progress: q Time left: zz Change: yy X:p Y:q Z:r E:s".toList)).1
       (by decide) (by decide)).1 (by decide),
    ((claim_c1_malformed_values initialPrinterState
       ("T:a B:b @:x Progress: q Time left: zz Change: yy X:p Y:q Z:r E:s".toList)).1
       (by decide) (by decide)).2⟩,
   ((claim_c1_malformed_values initialPrinterState
       ("T:a B:b @:x Progress: q Time left: zz Change: yy X:p Y:q Z:r E:s".toList)).2.1
       (by decide) (by decide)).1,
   ((claim_c1_malformed_values initialPrinterState
       ("T:a B:b @:x Progress: q Time left: zz Change: yy X:p Y:q Z:r E:s".toList)).2.2.1
       (by decide)).1,
   ((claim_c1_malformed_values initialPrinterState
       ("T:a B:b @:x Progress: q Time left: zz Change: yy X:p Y:q Z:r E:s".toList)).2.2.2.1
       (by decide) (by decide) (by decide)).2,
   (((claim_c1_malformed_values initialPrinterState
       ("T:a B:b @:x Progress: q Time left: zz Change: yy X:p Y:q Z:r E:s".toList)).2.2.2.2.1
       (by decide) (by decide)).2 (by decide)),
   ((claim_c1_malformed_values initialPrinterState
       ("T:a B:b @:x Progress: q Time left: zz Change: yy X:p Y:q Z:r E:s".toList)).2.2.2.2.2
       (by decide)).2⟩

/-- Claim C2 counterexample: on `X:45.0/45.0 C@:22.5` both auxiliary markers
are present and their values parse, yet — because the line lacks the `T:` and
`B:` dual-zone markers — the parser leaves the whole state unchanged and emits
only the log message: presence of the auxiliary marker alone does NOT trigger
the update. -/
theorem claim_c2_counterexample :
    heatbreakScan ("X:45.0/45.0 C@:22.5".toList) = some (45, 45) ∧
    chamberScan ("X:45.0/45.0 C@:22.5".toList) = some (mkRat 45 2) ∧
    (parse_and_broadcast_line initialPrinterState ("X:45.0/45.0 C@:22.5".toList)).1 =
      initialPrinterState ∧
    (parse_and_broadcast_line initialPrinterState ("X:45.0/45.0 C@:22.5".toList)).2 =
      [WsMessage.log (escapeLog ("X:45.0/45.0 C@:22.5".toList))] := by
  decide

/-- Claim C2 (amended): on a line that contains both dual-zone markers `T:`
and `B:`, each auxiliary single-value marker (heatbreak `X:cur/tgt`, chamber
`C@:v`) whose value parses updates its state field independently — in
particular independently of whether the dual-zone pair itself parses. -/
theorem claim_c2_aux_markers (st : PrinterState) (line : Str)
    (hT : (strstr? mT line).isSome = true)
    (hB : (strstr? mB line).isSome = true) :
    (∀ p : Rat × Rat, heatbreakScan line = some p →
      (parse_and_broadcast_line st line).1.temps.heatbreak_current = p.1 ∧
      (parse_and_broadcast_line st line).1.temps.heatbreak_target = p.2) ∧
    (∀ cv : Rat, chamberScan line = some cv →
      (parse_and_broadcast_line st line).1.temps.chamber_current = cv) := by
  constructor
  · intro p hp
    rw [parse_temps_proj]
    exact tempSection_heatbreak st.temps line hT hB p hp
  · intro cv hcv
    rw [parse_temps_proj]
    exact tempSection_chamber st.temps line hT hB cv hcv

/-- Witness for the amended claim C2: the dual-zone pair of the line fails to
parse (`T:x/y`), yet both auxiliary markers update their fields. -/
theorem claim_c2_aux_markers_witness :
    ((strstr? mT ("T:x/y B:z X:45.0/45.0 C@:22.5".toList)).isSome = true) ∧
    ((strstr? mB ("T:x/y B:z X:45.0/45.0 C@:22.5".toList)).isSome = true) ∧
    dualZoneScan ("T:x/y B:z X:45.0/45.0 C@:22.5".toList) = none ∧
    (parse_and_broadcast_line initialPrinterState
        ("T:x/y B:z X:45.0/45.0 C@:22.5".toList)).1.temps.heatbreak_current = 45 ∧
    (parse_and_broadcast_line initialPrinterState
        ("T:x/y B:z X:45.0/45.0 C@:22.5".toList)).1.temps.chamber_current = mkRat 45 2 :=
  ⟨by decide, by decide, by decide,
   ((claim_c2_aux_markers initialPrinterState ("T:x/y B:z X:45.0/45.0 C@:22.5".toList)
       (by decide) (by decide)).1 (45, 45) (by decide)).1,
   (claim_c2_aux_markers initialPrinterState ("T:x/y B:z X:45.0/45.0 C@:22.5".toList)
       (by decide) (by decide)).2 (mkRat 45 2) (by decide)⟩

/-- Claim C7 counterexample: on a line containing both a `Change:` value and
the completion phrase, the change-time field does NOT keep its previous value
(0 becomes 5), and the emitted Progress event carries the new change time. -/
theorem claim_c7_counterexample :
    (parse_and_broadcast_line initialPrinterState
        ("Change: 5m Done printing file".toList)).1.progress.change_mins = 5 ∧
    initialPrinterState.progress.change_mins = 0 ∧
    WsMessage.progress ⟨100, 0, 5⟩ ∈
      (parse_and_broadcast_line initialPrinterState
        ("Change: 5m Done printing file".toList)).2 := by
  decide

/-- Claim C7 (amended): a line containing `Done printing file` always leaves
the final progress at percent 100 and remaining time 0 and emits a Progress
event with exactly the final progress values; the completion handling itself
never touches the change-time field, so whenever the same line does not also
match the `Change:` pattern the change time keeps its previous value. -/
theorem claim_c7_done_marker (st : PrinterState) (line : Str)
    (hdone : (strstr? kwDone line).isSome = true) :
    (parse_and_broadcast_line st line).1.progress.percent = 100 ∧
    (parse_and_broadcast_line st line).1.progress.time_left_mins = 0 ∧
    WsMessage.progress ((parse_and_broadcast_line st line).1.progress) ∈
      (parse_and_broadcast_line st line).2 ∧
    ((strstr? kwChange line).isSome = false →
      (parse_and_broadcast_line st line).1.progress.change_mins =
        st.progress.change_mins) := by
  have hd := doneSection_present
    ((changeSection (timeLeftSection (progressSection st.progress line).1 line).1 line).1)
    line hdone
  refine ⟨?_, ?_, ?_, ?_⟩
  · rw [parse_progress_proj, hd]
  · rw [parse_progress_proj, hd]
  · rw [parse_events_eq, parse_progress_proj, hd]
    simp
  · intro hch
    rw [parse_progress_proj, hd]
    simp only
    rw [changeSection_absent _ _ hch, timeLeftSection_change, progressSection_change]

/-- Witness for the amended claim C7 at the line `Done printing file`. -/
theorem claim_c7_done_marker_witness :
    ((strstr? kwDone ("Done printing file".toList)).isSome = true) ∧
    (parse_and_broadcast_line initialPrinterState
        ("Done printing file".toList)).1.progress.percent = 100 ∧
    (parse_and_broadcast_line initialPrinterState
        ("Done printing file".toList)).1.progress.time_left_mins = 0 ∧
    WsMessage.progress ((parse_and_broadcast_line initialPrinterState
        ("Done printing file".toList)).1.progress) ∈
      (parse_and_broadcast_line initialPrinterState ("Done printing file".toList)).2 ∧
    (parse_and_broadcast_line initialPrinterState
        ("Done printing file".toList)).1.progress.change_mins =
      initialPrinterState.progress.change_mins :=
  ⟨by decide,
   (claim_c7_done_marker initialPrinterState ("Done printing file".toList) (by decide)).1,
   (claim_c7_done_marker initialPrinterState ("Done printing file".toList) (by decide)).2.1,
   (claim_c7_done_marker initialPrinterState ("Done printing file".toList) (by decide)).2.2.1,
   (claim_c7_done_marker initialPrinterState ("Done printing file".toList) (by decide)).2.2.2
     (by decide)⟩

/-- Claim C8 counterexample: a 300-character line produces exactly one Log
event, but its text is the escape-buffer-truncated first 254 characters, not
the line's full text. -/
theorem claim_c8_counterexample :
    (parse_and_broadcast_line initialPrinterState (List.replicate 300 'a')).2 =
      [WsMessage.log (List.replicate 254 'a')] ∧
    (List.replicate 254 'a' : Str) ≠ List.replicate 300 'a' := by
  constructor
  · decide
  · intro h
    have hlen := congrArg List.length h
    simp at hlen

/-- Claim C8 (amended): every line produces exactly one Log event regardless
of pattern matches, and its text is the line with `"` and `\` backslash-
escaped, truncated once the escape buffer budget (`ESC_CAP` output bytes at
the loop check) is reached. -/
theorem claim_c8_exactly_one_log (st : PrinterState) (line : Str) :
    ((parse_and_broadcast_line st line).2).filter isLogMsg =
      [WsMessage.log (escapeLog line)] := by
  rw [parse_events_eq]
  simp [List.filter_append, tempSection_filter_log, powerSection_filter_log,
        progressSection_filter_log, timeLeftSection_filter_log,
        changeSection_filter_log, positionSection_filter_log,
        doneSection_filter_log, isLogMsg]

/-- Claim C6: when both dual-zone markers are present and both
`current/target` pairs parse, the Temperature event's nozzle and bed values
equal exactly the parsed pairs (as do the state fields); when the dual-zone
scan fails — a marker missing or a pair not parsing — no Temperature event is
emitted and the nozzle/bed fields are unchanged. -/
theorem claim_c6_dual_zone (st : PrinterState) (line : Str) :
    (∀ nc nt bc bt : Rat, dualZoneScan line = some ((nc, nt), (bc, bt)) →
      ((parse_and_broadcast_line st line).1.temps.nozzle_current = nc ∧
       (parse_and_broadcast_line st line).1.temps.nozzle_target = nt ∧
       (parse_and_broadcast_line st line).1.temps.bed_current = bc ∧
       (parse_and_broadcast_line st line).1.temps.bed_target = bt) ∧
      (∃ t : TempState,
        WsMessage.temperature t ∈ (parse_and_broadcast_line st line).2 ∧
        t.nozzle_current = nc ∧ t.nozzle_target = nt ∧
        t.bed_current = bc ∧ t.bed_target = bt)) ∧
    (dualZoneScan line = none →
      (∀ t : TempState,
        WsMessage.temperature t ∉ (parse_and_broadcast_line st line).2) ∧
      (parse_and_broadcast_line st line).1.temps.nozzle_current = st.temps.nozzle_current ∧
      (parse_and_broadcast_line st line).1.temps.nozzle_target = st.temps.nozzle_target ∧
      (parse_and_broadcast_line st line).1.temps.bed_current = st.temps.bed_current ∧
      (parse_and_broadcast_line st line).1.temps.bed_target = st.temps.bed_target) := by
  constructor
  · intro nc nt bc bt h
    have hs := tempSection_some st.temps line ((nc, nt), (bc, bt)) h
    constructor
    · rw [parse_temps_proj]
      exact ⟨hs.1, hs.2.1, hs.2.2.1, hs.2.2.2.1⟩
    · refine ⟨(tempSection st.temps line).1, ?_, hs.1, hs.2.1, hs.2.2.1, hs.2.2.2.1⟩
      rw [parse_events_eq, hs.2.2.2.2]
      simp
  · intro h
    have hn := tempSection_none st.temps line h
    constructor
    · intro t hmem
      rw [parse_events_eq] at hmem
      rcases List.mem_cons.mp hmem with heq | hmem2
      · exact absurd heq (by simp)
      · rw [hn.1] at hmem2
        simp only [List.nil_append, List.mem_append] at hmem2
        rcases hmem2 with ((((h1 | h1) | h1) | h1) | h1) | h1
        · exact powerSection_no_temp st.power line t h1
        · exact progressSection_no_temp st.progress line t h1
        · exact timeLeftSection_no_temp _ line t h1
        · exact changeSection_no_temp _ line t h1
        · exact positionSection_no_temp st.position line t h1
        · exact doneSection_no_temp _ line t h1
    · rw [parse_temps_proj]
      exact hn.2

/-- Witness for claim C6 at the dual-zone scenario line. -/
theorem claim_c6_dual_zone_witness :
    dualZoneScan ("T:210.0/210.0 B:60.0/60.0".toList) = some ((210, 210), (60, 60)) ∧
    ((parse_and_broadcast_line initialPrinterState
        ("T:210.0/210.0 B:60.0/60.0".toList)).1.temps.nozzle_current = 210 ∧
     (parse_and_broadcast_line initialPrinterState
        ("T:210.0/210.0 B:60.0/60.0".toList)).1.temps.nozzle_target = 210 ∧
     (parse_and_broadcast_line initialPrinterState
        ("T:210.0/210.0 B:60.0/60.0".toList)).1.temps.bed_current = 60 ∧
     (parse_and_broadcast_line initialPrinterState
        ("T:210.0/210.0 B:60.0/60.0".toList)).1.temps.bed_target = 60) ∧
    (∃ t : TempState,
      WsMessage.temperature t ∈ (parse_and_broadcast_line initialPrinterState
        ("T:210.0/210.0 B:60.0/60.0".toList)).2 ∧
      t.nozzle_current = 210 ∧ t.nozzle_target = 210 ∧
      t.bed_current = 60 ∧ t.bed_target = 60) :=
  ⟨by decide,
   ((claim_c6_dual_zone initialPrinterState ("T:210.0/210.0 B:60.0/60.0".toList)).1
      210 210 60 60 (by decide)).1,
   ((claim_c6_dual_zone initialPrinterState ("T:210.0/210.0 B:60.0/60.0".toList)).1
      210 210 60 60 (by decide)).2⟩

end PrusaWS
